import Mathlib

/-!
Verification development for the simh peripheral storage subsystem:
the IBM 360 2400 magnetic tape controller (src/IBM360/ibm360_mt.c) and
the SEL-32 8064 high speed disk processor (src/unnamed/part_000,
sel32_hsdp.c).

The definitions are a shallow embedding of the two device drivers:
the per-unit state words (u3/u4/u5/u6, hwmark, CMD/STAR/SNS), the
per-controller shared transfer buffer and busy flag, the channel
adapter (byte-at-a-time transfer with an end-of-transfer signal), and
the service state machines.  Machine words are modelled as Nat with
explicit masking to the word width where it matters; the scheduler is
modelled by the optional delay a service step returns (sim_activate),
completion posting by an optional chan_end status and attention
posting by an optional set_devattn status.
-/

/-- Modelled from the spec: the channel status bit codes are defined in
ibm360_defs.h / sel32_defs.h, which are not under src/.  The spec fixes
them only as fixed, distinct bit codes (CHANNEL-END, DEVICE-END,
UNIT-CHECK, UNIT-EXCEPTION, BUSY); the concrete bit positions below are
never relied on by a theorem beyond distinctness of the combinations. -/
def SNS_CHNEND : Nat := 0x08

def SNS_DEVEND : Nat := 0x04

def SNS_UNITCHK : Nat := 0x02

def SNS_UNITEXP : Nat := 0x01

def SNS_BSY : Nat := 0x10

/-- Clear the bits of mask `m` in the 32-bit word `x`
(C: `x &= ~m` on a uint32). -/
def clr32 (x m : Nat) : Nat := x &&& (0xFFFFFFFF ^^^ m)

/-- The channel adapter seen by one unit: `input` is the byte stream
a chan_read_byte call consumes (empty means the channel has no more
data); `accept` is the number of further bytes chan_write_byte will
accept before signalling end of transfer; `got` collects the bytes
transferred to memory. -/
structure Chan where
  input : List Nat
  accept : Nat
  got : List Nat
deriving Repr, DecidableEq

/-- chan_write_byte: returns true (failure / end of transfer) when the
channel accepts no more bytes, otherwise transfers the byte. -/
def chan_write_byte (c : Chan) (b : Nat) : Bool × Chan :=
  if c.accept = 0 then (true, c)
  else (false, { c with accept := c.accept - 1, got := c.got ++ [b &&& 0xff] })

/-- chan_read_byte: none when the channel has no more data to supply. -/
def chan_read_byte (c : Chan) : Option (Nat × Chan) :=
  match c.input with
  | [] => none
  | b :: rest => some (b &&& 0xff, { c with input := rest })

/-- Successive chan_write_byte calls whose return values the caller
ignores (as the sense transfers do). -/
def chanWriteList (c : Chan) : List Nat → Chan
  | [] => c
  | b :: bs => chanWriteList (chan_write_byte c b).2 bs

namespace MT

/- ibm360_mt.c: command codes (low 6 bits of u3). -/
def MT_WRITE : Nat := 0x01
def MT_READ : Nat := 0x02
def MT_RDBK : Nat := 0x0c
def MT_SENSE : Nat := 0x04
def MT_REW : Nat := 0x07
def MT_RUN : Nat := 0x0f
def MT_ERG : Nat := 0x17
def MT_WTM : Nat := 0x1f
def MT_BSR : Nat := 0x27
def MT_BSF : Nat := 0x2f
def MT_FSR : Nat := 0x37
def MT_FSF : Nat := 0x3f

def MT_MDEN_800 : Nat := 0x80
def MT_MDEN_1600 : Nat := 0xc0
def MT_MDEN_MSK : Nat := 0xc0

/- u3 flag bits. -/
def MT_CMDMSK : Nat := 0x003f
def MT_READDONE : Nat := 0x0400
def MT_MARK : Nat := 0x0800
def MT_ODD : Nat := 0x1000
def MT_TRANS : Nat := 0x2000
def MT_CONV : Nat := 0x4000
def MT_BUSY : Nat := 0x8000

/- Sense byte 0 (low byte of u5). -/
def SNS_CMDREJ : Nat := 0x80
def SNS_INTVENT : Nat := 0x40
def SNS_BUSCHK : Nat := 0x20
def SNS_EQUCHK : Nat := 0x10
def SNS_DATCHK : Nat := 0x08
def SNS_OVRRUN : Nat := 0x04
def SNS_WCZERO : Nat := 0x02
def SNS_CVTCHK : Nat := 0x01

/- Sense byte 1 (second byte of u5). -/
def SNS_NOISE : Nat := 0x80
def SNS_TUASTA : Nat := 0x40
def SNS_TUBSTA : Nat := 0x20
def SNS_7TRACK : Nat := 0x10
def SNS_LOAD : Nat := 0x08
def SNS_WR : Nat := 0x04
def SNS_WRP : Nat := 0x02

/- Sense byte 3 (stored in u5 shifted left 16). -/
def SNS_VRC : Nat := 0x80

/- 7-track data converter phase tags (u6 high bits). -/
def MT_CONV1 : Nat := 0x40
def MT_CONV2 : Nat := 0x80
def MT_CONV3 : Nat := 0xc0

/-- hwmark sentinel: BUF_EMPTY(u) is (u->hwmark == 0xFFFFFFFF). -/
def BUF_EMPTY_MARK : Nat := 0xFFFFFFFF

/-- parity_table from ibm360_mt.c (64 entries, values 0o000 or 0o100). -/
def parity_table : List Nat :=
  [0o000, 0o100, 0o100, 0o000, 0o100, 0o000, 0o000, 0o100,
   0o100, 0o000, 0o000, 0o100, 0o000, 0o100, 0o100, 0o000,
   0o100, 0o000, 0o000, 0o100, 0o000, 0o100, 0o100, 0o000,
   0o000, 0o100, 0o100, 0o000, 0o100, 0o000, 0o000, 0o100,
   0o100, 0o000, 0o000, 0o100, 0o000, 0o100, 0o100, 0o000,
   0o000, 0o100, 0o100, 0o000, 0o100, 0o000, 0o000, 0o100,
   0o000, 0o100, 0o100, 0o000, 0o100, 0o000, 0o000, 0o100,
   0o100, 0o000, 0o000, 0o100, 0o000, 0o100, 0o100, 0o000]

def parityAt (n : Nat) : Nat := parity_table.getD n 0

/-- bcd_to_ebcdic translation table from ibm360_mt.c. -/
def bcd_to_ebcdic : List Nat :=
  [0x40, 0xf1, 0xf2, 0xf3, 0xf4, 0xf5, 0xf6, 0xf7,
   0xf8, 0xf9, 0xf0, 0x7b, 0x7c, 0x7d, 0x7e, 0x7f,
   0x7a, 0x61, 0xe2, 0xe3, 0xe4, 0xe5, 0xe6, 0xe7,
   0xe8, 0xe9, 0xe0, 0x6b, 0x6c, 0x6d, 0x6e, 0x6f,
   0x60, 0xd1, 0xd2, 0xd3, 0xd4, 0xd5, 0xd6, 0xd7,
   0xd8, 0xd9, 0xd0, 0x5b, 0x5c, 0x5d, 0x5e, 0x5f,
   0x50, 0xc1, 0xc2, 0xc3, 0xc4, 0xc5, 0xc6, 0xc7,
   0xc8, 0xc9, 0xc0, 0x4b, 0x4c, 0x4d, 0x4e, 0x4f]

/-- One tape unit (UNIT fields used by ibm360_mt.c).
`attached`, `wlk`, `bot` and `ninetrk` are the unit flag bits
UNIT_ATT, MTUF_WLK, beginning-of-tape, and MTUF_9TR; `fbusy` is the
MT_BUSY (0x8000) bit that mt_startcmd ORs into uptr->flags (the "send
a CUE" retry marker).  u3 holds the command code and mode/flag bits,
u4 the buffer position, u5 the packed sense bytes, u6 the data
converter state, and hwmark the record high-water mark. -/
structure MtUnit where
  attached : Bool
  wlk : Bool
  bot : Bool
  ninetrk : Bool
  fbusy : Bool
  u3 : Nat
  u4 : Nat
  u5 : Nat
  u6 : Nat
  hwmark : Nat
deriving Repr, DecidableEq

/-- Result of mt_startcmd: updated unit, updated controller-busy flag,
returned status byte, and the sim_activate delay if one was scheduled. -/
structure MtCmdOut where
  unit : MtUnit
  busy : Bool
  status : Nat
  delay : Option Nat
deriving Repr, DecidableEq

/-- The shared install sequence of mt_startcmd case 0x4 (also reached
by fall-through from the motion/read/write cases): install the
command, activate the unit, clear the record buffer sentinel and the
converter state, claim the controller buffer (mt_busy = 1), and return
quick channel-end for control commands. -/
def mtInstall (u : MtUnit) (cmd : Nat) : MtCmdOut :=
  let u' := { u with
      u3 := clr32 u.u3 MT_CMDMSK ||| (cmd &&& MT_CMDMSK),
      hwmark := BUF_EMPTY_MARK,
      u4 := 0,
      u6 := 0 }
  { unit := u', busy := true,
    status := if cmd &&& 0x7 = 0x7 then SNS_CHNEND else 0,
    delay := some 1000 }

/-- mt_startcmd for a 7-track unit, control/mode-set command body
(cases 0x3/0xb, 7-track branch). -/
def mtCtl7trk (busy : Bool) (u : MtUnit) (cmd : Nat) : MtCmdOut :=
  let u := { u with u5 := u.u5 ||| (SNS_7TRACK <<< 8) }
  if cmd &&& 0xc0 = 0xc0 then
    { unit := { u with u5 := u.u5 ||| SNS_CMDREJ }, busy := busy,
      status := SNS_CHNEND ||| SNS_DEVEND ||| SNS_UNITCHK, delay := none }
  else
    match (cmd >>> 3) &&& 0x7 with
    | 0 | 1 | 3 =>
      { unit := u, busy := busy, status := SNS_CHNEND ||| SNS_DEVEND, delay := none }
    | 2 =>
      let u := { u with u3 := clr32 u.u3 (MT_ODD ||| MT_TRANS ||| MT_CONV ||| MT_MDEN_MSK)
                          ||| (cmd &&& MT_MDEN_MSK) ||| MT_ODD ||| MT_CONV, u5 := 0 }
      { unit := u, busy := busy, status := SNS_CHNEND ||| SNS_DEVEND, delay := none }
    | 4 =>
      let u := { u with u3 := clr32 u.u3 (MT_ODD ||| MT_TRANS ||| MT_CONV ||| MT_MDEN_MSK)
                          ||| (cmd &&& MT_MDEN_MSK), u5 := 0 }
      { unit := u, busy := busy, status := SNS_CHNEND ||| SNS_DEVEND, delay := none }
    | 5 =>
      let u := { u with u3 := clr32 u.u3 (MT_ODD ||| MT_TRANS ||| MT_CONV ||| MT_MDEN_MSK)
                          ||| (cmd &&& MT_MDEN_MSK) ||| MT_TRANS, u5 := 0 }
      { unit := u, busy := busy, status := SNS_CHNEND ||| SNS_DEVEND, delay := none }
    | 6 =>
      let u := { u with u3 := clr32 u.u3 (MT_ODD ||| MT_TRANS ||| MT_CONV ||| MT_MDEN_MSK)
                          ||| (cmd &&& MT_MDEN_MSK) ||| MT_ODD, u5 := 0 }
      { unit := u, busy := busy, status := SNS_CHNEND ||| SNS_DEVEND, delay := none }
    | _ =>
      let u := { u with u3 := clr32 u.u3 (MT_ODD ||| MT_TRANS ||| MT_CONV ||| MT_MDEN_MSK)
                          ||| (cmd &&& MT_MDEN_MSK) ||| MT_ODD ||| MT_TRANS, u5 := 0 }
      { unit := u, busy := busy, status := SNS_CHNEND ||| SNS_DEVEND, delay := none }

/-- mt_startcmd: the command dispatcher of the tape controller.
`busy` is mt_busy[bufnum] for the controller owning the unit. -/
def mt_startcmd (busy : Bool) (u : MtUnit) (cmd : Nat) : MtCmdOut :=
  if busy || u.u3 &&& MT_CMDMSK ≠ 0 then
    { unit := { u with fbusy := true }, busy := busy, status := SNS_BSY, delay := none }
  else
    let k := cmd &&& 0xF
    if k = 0x7 || k = 0xf || k = 0x1 || k = 0x2 || k = 0xc then
      -- snapshot the pre-state sense bits, then fall through to install
      let u5a := SNS_TUASTA <<< 8
      let u5b := if u.ninetrk then u5a else u5a ||| (SNS_7TRACK <<< 8)
      let u5c := if u.wlk then u5b ||| (SNS_WRP <<< 8) else u5b
      let u5d := if u.bot then u5c ||| (SNS_LOAD <<< 8) else u5c
      mtInstall { u with u5 := u5d } cmd
    else if k = 0x4 then
      mtInstall u cmd
    else if k = 0x3 || k = 0xb then
      if ¬u.attached then
        { unit := { u with u5 := u.u5 ||| SNS_INTVENT }, busy := busy,
          status := SNS_CHNEND ||| SNS_DEVEND ||| SNS_UNITCHK, delay := none }
      else if ¬u.ninetrk then
        mtCtl7trk busy u cmd
      else
        let den := if cmd &&& 0x8 ≠ 0 then MT_MDEN_800 else MT_MDEN_1600
        { unit := { u with u3 := clr32 u.u3 MT_MDEN_MSK ||| den, u5 := 0 },
          busy := busy, status := SNS_CHNEND ||| SNS_DEVEND, delay := none }
    else if k = 0x0 then
      if u.u5 &&& 0xff ≠ 0 then
        { unit := u, busy := busy,
          status := SNS_CHNEND ||| SNS_DEVEND ||| SNS_UNITCHK, delay := none }
      else
        { unit := u, busy := busy, status := SNS_CHNEND ||| SNS_DEVEND, delay := none }
    else
      let u' := { u with u5 := u.u5 ||| SNS_CMDREJ }
      { unit := u', busy := busy,
        status := SNS_CHNEND ||| SNS_DEVEND ||| SNS_UNITCHK, delay := none }

/-- Result of a sim_tape space operation (sim_tape_sprecf / sprecr):
a record of the given length was crossed, or a tape mark, the
beginning of tape, or the end of medium was met. -/
inductive SpaceRes
  | ok (reclen : Nat)
  | tmk
  | botr
  | eom
deriving Repr, DecidableEq

/-- reclen as left by a space operation (0 on the non-record results,
matching sim_tape's out-parameter). -/
def SpaceRes.len : SpaceRes → Nat
  | .ok n => n
  | _ => 0

/-- The media adapter responses consumed by one mt_srv step:
`rdrec` is the record sim_tape_rdrecf returns (the claims only
exercise the MTSE_OK result, so the tape is modelled by the record it
yields); `spaceF`/`spaceR` are the forward/backward space results. -/
structure MtMedia where
  rdrec : List Nat
  spaceF : SpaceRes
  spaceR : SpaceRes
deriving Repr, DecidableEq

/-- Full state touched by one mt_srv step: the unit, its channel, the
controller's shared transfer buffer (mt_buffer row) and busy flag. -/
structure MtState where
  unit : MtUnit
  chan : Chan
  buffer : List Nat
  busy : Bool
deriving Repr, DecidableEq

/-- Outcome of one mt_srv step: the successor state, the status posted
through chan_end (terminal completion) if any, the status posted
through set_devattn (decoupled attention) if any, the sim_activate
delay if the unit rescheduled itself, and the record committed to the
media by sim_tape_wrrecf if one was. -/
structure MtOut where
  st : MtState
  chanEnd : Option Nat
  devAttn : Option Nat
  delay : Option Nat
  wrote : Option (List Nat)
deriving Repr, DecidableEq

/-- A step that changes nothing and posts nothing. -/
def mtNoop (s : MtState) : MtOut :=
  { st := s, chanEnd := none, devAttn := none, delay := none, wrote := none }

/-- mt_srv, case MT_SENSE: transfer the six sense bytes in fixed
order, release the controller buffer and post channel-end plus
device-end.  The sense register u5 itself is left unchanged. -/
def mtSenseStep (s : MtState) : MtOut :=
  let u := s.unit
  let bytes := [u.u5 &&& 0xff, (u.u5 >>> 8) &&& 0xff, 0xc0,
                (u.u5 >>> 16) &&& 0xff, 0, 0]
  { st := { s with unit := { u with u3 := clr32 u.u3 MT_CMDMSK },
                   chan := chanWriteList s.chan bytes, busy := false },
    chanEnd := some (SNS_CHNEND ||| SNS_DEVEND), devAttn := none,
    delay := none, wrote := none }

/-- The tail of the MT_READ case: deliver the (possibly converted)
byte to the channel.  On end of transfer with the record not yet
exhausted, send a dummy byte, schedule the drain delay proportional to
the remaining bytes and set MT_READDONE; on end of transfer at the
record boundary post device-end; on a normal transfer finish the
command at the record boundary or reschedule. -/
def mtReadDeliver (s : MtState) (u : MtUnit) (buf : List Nat) (ch : Nat) : MtOut :=
  let (fail, c) := chan_write_byte s.chan ch
  if fail then
    if u.u4 < u.hwmark then
      let c2 := (chan_write_byte c ch).2
      { st := { s with unit := { u with u3 := u.u3 ||| MT_READDONE },
                       chan := c2, buffer := buf },
        chanEnd := none, devAttn := none,
        delay := some ((u.hwmark - u.u4) * 20), wrote := none }
    else
      { st := { s with unit := { u with u3 := clr32 u.u3 MT_CMDMSK },
                       chan := c, buffer := buf, busy := false },
        chanEnd := some SNS_DEVEND, devAttn := none, delay := none, wrote := none }
  else
    if u.u4 ≥ u.hwmark then
      { st := { s with unit := { u with u3 := clr32 u.u3 MT_CMDMSK },
                       chan := c, buffer := buf, busy := false },
        chanEnd := some (SNS_CHNEND ||| SNS_DEVEND), devAttn := none,
        delay := none, wrote := none }
    else
      { st := { s with unit := u, chan := c, buffer := buf },
        chanEnd := none, devAttn := none, delay := some 20, wrote := none }

/-- mt_srv, case MT_READ. -/
def mtReadStep (m : MtMedia) (s : MtState) : MtOut :=
  let u := s.unit
  if u.u3 &&& MT_READDONE ≠ 0 then
    { st := { s with unit := { u with u3 := clr32 u.u3 (MT_CMDMSK ||| MT_READDONE) },
                     busy := false },
      chanEnd := some (SNS_CHNEND ||| SNS_DEVEND), devAttn := none,
      delay := none, wrote := none }
  else
    let fill := u.hwmark = BUF_EMPTY_MARK
    let buf := if fill then m.rdrec else s.buffer
    let u := { u with u4 := if fill then 0 else u.u4,
                      hwmark := if fill then m.rdrec.length else u.hwmark }
    let ch0 := buf.getD u.u4 0
    let u := { u with u4 := u.u4 + 1 }
    if u.ninetrk then
      mtReadDeliver s u buf ch0
    else
      let mode := if u.u3 &&& MT_ODD ≠ 0 then 0 else 0o100
      let u := { u with u5 := if parityAt (ch0 &&& 0o77) ^^^ (ch0 &&& 0o100) ^^^ mode = 0
        then u.u5 ||| ((SNS_VRC <<< 16) ||| SNS_DATCHK) else u.u5 }
      let ch1 := ch0 &&& 0o77
      let ch2 := if u.u3 &&& MT_TRANS ≠ 0 then bcd_to_ebcdic.getD ch1 0 else ch1
      if u.u3 &&& MT_CONV ≠ 0 then
        if u.u6 = 0 ∧ u.u4 < u.hwmark then
          { st := { s with unit := { u with u6 := MT_CONV1 ||| ch2 }, buffer := buf },
            chanEnd := none, devAttn := none, delay := some 20, wrote := none }
        else if u.u6 &&& 0xc0 = MT_CONV1 then
          let t := u.u6 &&& 0x3F
          mtReadDeliver s { u with u6 := MT_CONV2 ||| ch2 } buf
            ((t <<< 2) ||| ((ch2 >>> 4) &&& 0x3))
        else if u.u6 &&& 0xc0 = MT_CONV2 then
          let t := u.u6 &&& 0xf
          mtReadDeliver s { u with u6 := MT_CONV3 ||| ch2 } buf
            ((t <<< 4) ||| ((ch2 >>> 2) &&& 0xf))
        else if u.u6 &&& 0xc0 = MT_CONV3 then
          mtReadDeliver s { u with u6 := 0 } buf (ch2 ||| ((u.u6 &&& 0x3) <<< 6))
        else
          mtReadDeliver s u buf ch2
      else
        mtReadDeliver s u buf ch2

/-- mt_srv, case MT_WRITE.  Note: after buffering a data byte the
source `break`s out of the switch before reaching the
`sim_activate(uptr, 20)` call at the bottom of the case, so those
steps return no delay (no further service step is scheduled). -/
def mtWriteStep (s : MtState) : MtOut :=
  let u := s.unit
  if u.wlk then
    { st := { s with unit := { u with u5 := u.u5 ||| SNS_CMDREJ,
                                       u3 := clr32 u.u3 MT_CMDMSK },
                     busy := false },
      chanEnd := some (SNS_CHNEND ||| SNS_DEVEND ||| SNS_UNITCHK),
      devAttn := none, delay := none, wrote := none }
  else
    match chan_read_byte s.chan with
    | none =>
      if u.u4 > 0 then
        -- sim_tape_wrrecf(buffer, hwmark); mt_error(MTSE_OK)
        { st := { s with unit := { u with u4 := 0, u3 := clr32 u.u3 MT_CMDMSK },
                         busy := false },
          chanEnd := some (SNS_CHNEND ||| SNS_DEVEND), devAttn := none,
          delay := some 20, wrote := some (s.buffer.take u.hwmark) }
      else
        { st := { s with unit := { u with u5 := u.u5 ||| SNS_WCZERO } },
          chanEnd := none, devAttn := none, delay := some 20, wrote := none }
    | some (ch, c) =>
      if u.ninetrk then
        let u' := { u with u4 := u.u4 + 1 }
        { st := { s with unit := { u' with hwmark := u'.u4 }, chan := c,
                         buffer := s.buffer ++ [ch] },
          chanEnd := none, devAttn := none, delay := none, wrote := none }
      else
        let mode := if u.u3 &&& MT_ODD ≠ 0 then 0 else 0o100
        let ch1 := if u.u3 &&& MT_TRANS ≠ 0
          then (ch &&& 0xf) ||| ((ch &&& 0x30) ^^^ 0x30) else ch
        let (u2, buf2, ch2) :=
          if u.u3 &&& MT_CONV ≠ 0 then
            if u.u6 = 0 then
              ({ u with u6 := MT_CONV1 ||| (ch1 &&& 0x3) }, s.buffer, ch1 >>> 2)
            else if u.u6 &&& 0xc0 = MT_CONV1 then
              let t := u.u6 &&& 0x3
              ({ u with u6 := MT_CONV2 ||| (ch1 &&& 0xf) }, s.buffer,
               (t <<< 4) ||| ((ch1 >>> 4) &&& 0xf))
            else if u.u6 &&& 0xc0 = MT_CONV2 then
              let t := u.u6 &&& 0xf
              let chf := (t <<< 2) ||| ((ch1 >>> 6) &&& 0x3)
              let chp := chf ^^^ (parityAt (chf &&& 0o77) ^^^ mode)
              ({ u with u6 := 0, u4 := u.u4 + 1 }, s.buffer ++ [chp], chp)
            else (u, s.buffer, ch1)
          else (u, s.buffer, ch1)
        let ch3 := ch2 &&& 0o77
        let ch4 := ch3 ||| (parityAt ch3 ^^^ mode)
        let u5' := { u2 with u4 := u2.u4 + 1 }
        { st := { s with unit := { u5' with hwmark := u5'.u4 }, chan := c,
                         buffer := buf2 ++ [ch4] },
          chanEnd := none, devAttn := none, delay := none, wrote := none }

/-- mt_srv, cases 0x7/0xf: the tape motion commands.  Every terminal
completion is posted through set_devattn (never chan_end). -/
def mtMotionStep (m : MtMedia) (s : MtState) : MtOut :=
  let u := s.unit
  let cmd := u.u3 &&& MT_CMDMSK
  if cmd = MT_WTM then
    if u.u4 = 0 then
      if u.wlk then
        { st := { s with unit := { u with u5 := u.u5 ||| SNS_CMDREJ,
                                           u3 := clr32 u.u3 MT_CMDMSK },
                         busy := false },
          chanEnd := none, devAttn := some (SNS_DEVEND ||| SNS_UNITCHK),
          delay := none, wrote := none }
      else
        { st := { s with unit := { u with u4 := u.u4 + 1 } },
          chanEnd := none, devAttn := none, delay := some 500, wrote := none }
    else
      -- sim_tape_wrtmk; result unused by the source beyond debug output
      { st := { s with unit := { u with u3 := clr32 u.u3 MT_CMDMSK }, busy := false },
        chanEnd := none, devAttn := some SNS_DEVEND, delay := none, wrote := none }
  else if cmd = MT_BSR then
    match u.u4 with
    | 0 =>
      if u.bot then
        { st := { s with unit := { u with u3 := clr32 u.u3 MT_CMDMSK }, busy := false },
          chanEnd := none, devAttn := some (SNS_DEVEND ||| SNS_UNITCHK),
          delay := none, wrote := none }
      else
        { st := { s with unit := { u with u4 := u.u4 + 1 } },
          chanEnd := none, devAttn := none, delay := some 500, wrote := none }
    | 1 =>
      let u := { u with u4 := u.u4 + 1 }
      match m.spaceR with
      | .tmk =>
        { st := { s with unit := { u with u4 := u.u4 + 1 } },
          chanEnd := none, devAttn := none, delay := some 50, wrote := none }
      | r =>
        { st := { s with unit := u }, chanEnd := none, devAttn := none,
          delay := some (10 + 10 * r.len), wrote := none }
    | 2 =>
      { st := { s with unit := { u with u3 := clr32 u.u3 MT_CMDMSK }, busy := false },
        chanEnd := none, devAttn := some SNS_DEVEND, delay := none, wrote := none }
    | 3 =>
      { st := { s with unit := { u with u3 := clr32 u.u3 MT_CMDMSK }, busy := false },
        chanEnd := none, devAttn := some (SNS_DEVEND ||| SNS_UNITEXP),
        delay := none, wrote := none }
    | _ => mtNoop s
  else if cmd = MT_BSF then
    match u.u4 with
    | 0 =>
      if u.bot then
        { st := { s with unit := { u with u3 := clr32 u.u3 MT_CMDMSK }, busy := false },
          chanEnd := none, devAttn := some (SNS_DEVEND ||| SNS_UNITCHK),
          delay := none, wrote := none }
      else
        { st := { s with unit := { u with u4 := u.u4 + 1 } },
          chanEnd := none, devAttn := none, delay := some 500, wrote := none }
    | 1 =>
      match m.spaceR with
      | .tmk =>
        { st := { s with unit := { u with u4 := u.u4 + 1 } },
          chanEnd := none, devAttn := none, delay := some 50, wrote := none }
      | .botr =>
        { st := { s with unit := { u with u4 := u.u4 + 2 } },
          chanEnd := none, devAttn := none, delay := some 50, wrote := none }
      | r =>
        { st := s, chanEnd := none, devAttn := none,
          delay := some (10 + 10 * r.len), wrote := none }
    | 2 =>
      { st := { s with unit := { u with u3 := clr32 u.u3 MT_CMDMSK }, busy := false },
        chanEnd := none, devAttn := some (SNS_DEVEND ||| SNS_UNITEXP),
        delay := none, wrote := none }
    | 3 =>
      { st := { s with unit := { u with u3 := clr32 u.u3 MT_CMDMSK }, busy := false },
        chanEnd := none, devAttn := some (SNS_DEVEND ||| SNS_UNITCHK),
        delay := none, wrote := none }
    | _ => mtNoop s
  else if cmd = MT_FSR then
    match u.u4 with
    | 0 =>
      { st := { s with unit := { u with u4 := u.u4 + 1 } },
        chanEnd := none, devAttn := none, delay := some 500, wrote := none }
    | 1 =>
      let u := { u with u4 := u.u4 + 1 }
      match m.spaceF with
      | .tmk =>
        { st := { s with unit := { u with u4 := 3 } },
          chanEnd := none, devAttn := none, delay := some 50, wrote := none }
      | .eom =>
        { st := { s with unit := { u with u4 := 4 } },
          chanEnd := none, devAttn := none, delay := some 50, wrote := none }
      | r =>
        { st := { s with unit := u }, chanEnd := none, devAttn := none,
          delay := some (10 + 10 * r.len), wrote := none }
    | 2 =>
      { st := { s with unit := { u with u3 := clr32 u.u3 MT_CMDMSK }, busy := false },
        chanEnd := none, devAttn := some SNS_DEVEND, delay := none, wrote := none }
    | 3 =>
      { st := { s with unit := { u with u3 := clr32 u.u3 MT_CMDMSK }, busy := false },
        chanEnd := none, devAttn := some (SNS_DEVEND ||| SNS_UNITEXP),
        delay := none, wrote := none }
    | 4 =>
      { st := { s with unit := { u with u3 := clr32 u.u3 MT_CMDMSK }, busy := false },
        chanEnd := none, devAttn := some (SNS_DEVEND ||| SNS_UNITCHK),
        delay := none, wrote := none }
    | _ => mtNoop s
  else if cmd = MT_FSF then
    match u.u4 with
    | 0 =>
      { st := { s with unit := { u with u4 := u.u4 + 1 } },
        chanEnd := none, devAttn := none, delay := some 500, wrote := none }
    | 1 =>
      match m.spaceF with
      | .tmk =>
        { st := { s with unit := { u with u4 := u.u4 + 1 } },
          chanEnd := none, devAttn := none, delay := some 50, wrote := none }
      | .eom =>
        { st := { s with unit := { u with u4 := u.u4 + 2 } },
          chanEnd := none, devAttn := none, delay := some 50, wrote := none }
      | r =>
        { st := s, chanEnd := none, devAttn := none,
          delay := some (10 + 10 * r.len), wrote := none }
    | 2 =>
      { st := { s with unit := { u with u3 := clr32 u.u3 MT_CMDMSK }, busy := false },
        chanEnd := none, devAttn := some SNS_DEVEND, delay := none, wrote := none }
    | 3 =>
      { st := { s with unit := { u with u3 := clr32 u.u3 MT_CMDMSK }, busy := false },
        chanEnd := none, devAttn := some (SNS_DEVEND ||| SNS_UNITCHK),
        delay := none, wrote := none }
    | _ => mtNoop s
  else if cmd = MT_ERG then
    match u.u4 with
    | 0 =>
      if u.wlk then
        { st := { s with unit := { u with u5 := u.u5 ||| SNS_CMDREJ,
                                           u3 := clr32 u.u3 MT_CMDMSK },
                         busy := false },
          chanEnd := none, devAttn := some (SNS_DEVEND ||| SNS_UNITCHK),
          delay := none, wrote := none }
      else
        { st := { s with unit := { u with u4 := u.u4 + 1 } },
          chanEnd := none, devAttn := none, delay := some 500, wrote := none }
    | 1 =>
      -- sim_tape_wrgap(uptr, 35)
      { st := { s with unit := { u with u4 := u.u4 + 1 } },
        chanEnd := none, devAttn := none, delay := some 5000, wrote := none }
    | _ =>
      { st := { s with unit := { u with u3 := clr32 u.u3 MT_CMDMSK }, busy := false },
        chanEnd := none, devAttn := some SNS_DEVEND, delay := none, wrote := none }
  else if cmd = MT_REW then
    if u.u4 = 0 then
      { st := { s with unit := { u with u4 := u.u4 + 1 }, busy := false },
        chanEnd := none, devAttn := none, delay := some 30000, wrote := none }
    else
      -- sim_tape_rewind
      { st := { s with unit := { u with u3 := clr32 u.u3 MT_CMDMSK, bot := true } },
        chanEnd := none, devAttn := some SNS_DEVEND, delay := none, wrote := none }
  else if cmd = MT_RUN then
    if u.u4 = 0 then
      { st := { s with unit := { u with u4 := u.u4 + 1 }, busy := false },
        chanEnd := none, devAttn := none, delay := some 30000, wrote := none }
    else
      -- sim_tape_detach
      { st := { s with unit := { u with u3 := clr32 u.u3 MT_CMDMSK, attached := false } },
        chanEnd := none, devAttn := some SNS_DEVEND, delay := none, wrote := none }
  else
    mtNoop s

/-- mt_srv: one service step of the tape unit.  The ERG `| _` arm of
the motion sub-switch matches the source, whose case 2 has no `break`
before the closing brace; Read Backward (0x0c) is omitted: no claim
depends on it. -/
def mt_srv (m : MtMedia) (s : MtState) : MtOut :=
  let u := s.unit
  let cmd := u.u3 &&& MT_CMDMSK
  if ¬u.attached ∧ cmd ≠ MT_SENSE then
    { st := { s with unit := { u with u5 := u.u5 ||| SNS_INTVENT,
                                       u3 := clr32 u.u3 MT_CMDMSK },
                     busy := false },
      chanEnd := some (SNS_CHNEND ||| SNS_DEVEND ||| SNS_UNITCHK),
      devAttn := none, delay := none, wrote := none }
  else
    let s := if u.attached then s
      else { s with unit := { u with u5 := u.u5 ||| SNS_INTVENT } }
    let k := cmd &&& 0xf
    if k = 0 then mtNoop s
    else if k = 0x4 then mtSenseStep s
    else if k = 0x2 then mtReadStep m s
    else if k = 0x1 then mtWriteStep s
    else if k = 0x7 ∨ k = 0xf then mtMotionStep m s
    else mtNoop s

/-- A unit together with its pending-scheduled-callback marker (the
simulator event queue entry for the unit, if any). -/
structure MtSched where
  st : MtState
  pending : Bool
deriving Repr, DecidableEq

/-- Modelled from the spec: sim_tape_detach / detach_unit live in the
simulator framework (sim_tape.c / scp.c), which is not under src/.
Following spec section 5 (Cancellation: "detach ... cancels any
pending scheduled callback") and section 6 (Scheduler `cancel(unit)`),
detaching cancels the unit's pending scheduled callback and unbinds
the media. -/
def detach_unit (s : MtSched) : MtSched :=
  { st := { s.st with unit := { s.st.unit with attached := false } },
    pending := false }

/-- mt_detach: u3 &= UNIT_ADDR_MASK (only the non-address bits of u3
are modelled, so u3 becomes 0), u4 = 0, u5 = 0, then sim_tape_detach. -/
def mt_detach (s : MtSched) : MtSched :=
  detach_unit { s with
    st := { s.st with unit := { s.st.unit with u3 := 0, u4 := 0, u5 := 0 } } }

/-- mt_reset: the device reset routine body is empty (returns SCPE_OK
without touching any unit). -/
def mt_reset (s : MtSched) : MtSched := s

end MT

namespace HSDP

/- sel32_hsdp.c: u3 (CMD) flag bits. -/
def DSK_CMDMSK : Nat := 0x00ff
def DSK_STAR : Nat := 0x0100
def DSK_READDONE : Nat := 0x0400
def DSK_ENDDSK : Nat := 0x0800
def DSK_SEEKING : Nat := 0x1000
def DSK_READING : Nat := 0x2000
def DSK_WRITING : Nat := 0x4000
def DSK_BUSY : Nat := 0x8000

/- command codes. -/
def DSK_INCH : Nat := 0x00
def DSK_WD : Nat := 0x01
def DSK_RD : Nat := 0x02
def DSK_NOP : Nat := 0x03
def DSK_SNS : Nat := 0x04
def DSK_SCK : Nat := 0x07
def DSK_LMR : Nat := 0x1F
def DSK_XEZ : Nat := 0x37

/- SNS (u5) sense bits (byte 1 of the sense data). -/
def SNS_CMDREJ : Nat := 0x800000
def SNS_INTVENT : Nat := 0x400000
def SNS_EQUCHK : Nat := 0x100000
def SNS_DATCHK : Nat := 0x080000

/-- One row of the hsdp_type device-geometry table. -/
structure HsdpGeom where
  name : String
  taus : Nat
  bms : Nat
  nhds : Nat
  ssiz : Nat
  spt : Nat
  spau : Nat
  spb : Nat
  cyl : Nat
  typ : Nat
deriving Repr, DecidableEq

/-- The hsdp_type table from sel32_hsdp.c. -/
def hsdp_type : List HsdpGeom :=
  [⟨"MH040", 20000,  625,  5, 256, 16, 2, 1,  400, 0x40⟩,
   ⟨"MH080", 40000, 1250,  5, 256, 16, 2, 1,  800, 0x40⟩,
   ⟨"MH160", 80000, 1250, 10, 256, 16, 4, 1, 1600, 0x40⟩,
   ⟨"MH300", 76000, 2375, 19, 256, 16, 4, 1,  800, 0x40⟩,
   ⟨"MH340", 76000, 2375, 24, 256, 16, 4, 1,  800, 0x40⟩,
   ⟨"FH005",  5120,  184,  4, 256, 16, 1, 1,   64, 0x80⟩,
   ⟨"CD032",  8000,  250,  1, 256, 16, 2, 1,  800, 0x60⟩,
   ⟨"CD032",  8000,  250,  1, 256, 16, 2, 1,  800, 0x60⟩,
   ⟨"CD064",  8000,  250,  1, 256, 16, 2, 1,  800, 0x60⟩,
   ⟨"CD064", 24000,  750,  3, 256, 16, 2, 1,  800, 0x60⟩,
   ⟨"CD096",  8000,  250,  1, 256, 16, 2, 1,  800, 0x60⟩,
   ⟨"CD096", 40000, 1250,  5, 256, 16, 2, 1,  800, 0x60⟩,
   ⟨"MH600", 80000, 2500, 40, 256, 16, 8, 1,  800, 0x40⟩,
   ⟨"FM600", 80000, 2500, 40, 256, 16, 8, 1,  800, 0x40⟩,
   ⟨"FM600",  1600,   50, 40, 256, 16, 1, 1,    2, 0x80⟩]

def hsdpTypeAt (n : Nat) : HsdpGeom :=
  hsdp_type.getD n ⟨"", 0, 0, 0, 0, 0, 0, 0, 0, 0⟩

/-- One disk unit: UNIT_ATT flag, CMD (u3, command plus flag bits;
the device address bits are not modelled), STAR (u4), SNS (u5) and
the ATTR drive attribute register (u6). -/
structure HsdpUnit where
  attached : Bool
  cmd : Nat
  star : Nat
  sns : Nat
  attr : Nat
deriving Repr, DecidableEq

/-- struct ddata_t: the position cursor.  `cyl` is a C uint16; it is
modelled as Int so the signed distance computation and the two clamps
of the seek loop translate literally (on all reachable states the
value stays within 0..cylinders-1, where the two coincide). -/
structure DiskPos where
  cyl : Int
  tpos : Nat
  spos : Nat
deriving Repr, DecidableEq

/-- Outcome of a disk service step: updated unit and position cursor,
optional chan_end status, optional set_devattn status and optional
sim_activate delay. -/
structure HsdpOut where
  unit : HsdpUnit
  pos : DiskPos
  chanEnd : Option Nat
  devAttn : Option Nat
  delay : Option Nat
deriving Repr, DecidableEq

/-- hsdp_srv, DSK_SCK case while DSK_SEEKING is set: if the position
cursor has reached the target cylinder, clear the command and post
device-end through the decoupled attention path; otherwise take one
staircase step of 50, 20 or 1 cylinders toward it (clamped to the
geometry), rescheduling with the band's delay (the following
sim_activate(uptr, 2) in the source is a no-op because the unit is
already activated). -/
def hsdpSeekPoll (g : HsdpGeom) (u : HsdpUnit) (pos : DiskPos) : HsdpOut :=
  let target : Int := ((u.star >>> 16 : Nat) : Int)
  if target = pos.cyl then
    { unit := { u with cmd := clr32 u.cmd 0xffff }, pos := pos,
      chanEnd := none, devAttn := some SNS_DEVEND, delay := some 20 }
  else
    let i : Int := target - pos.cyl
    if i > 0 then
      let c0 := if i > 50 then pos.cyl + 50
                else if i > 20 then pos.cyl + 20
                else pos.cyl + 1
      let d : Nat := if i > 50 then 800 else if i > 20 then 400 else 200
      let c1 := if c0 ≥ (g.cyl : Int) then (g.cyl : Int) - 1 else c0
      { unit := u, pos := { pos with cyl := c1 },
        chanEnd := none, devAttn := none, delay := some d }
    else
      let c0 := if i < -50 then pos.cyl - 50
                else if i < -20 then pos.cyl - 20
                else pos.cyl - 1
      let d : Nat := if i < -50 then 800 else if i < -20 then 400 else 200
      let c1 := if c0 < 0 then 0 else c0
      { unit := u, pos := { pos with cyl := c1 },
        chanEnd := none, devAttn := none, delay := some d }

/-- hsdp_srv, DSK_SCK case with DSK_SEEKING clear: start a new seek
from the four target bytes (cylinder:16, head:8, sector:8) supplied
by the channel (the chan_read_byte error sub-path is not exercised by
any claim and is omitted; sim_fseek touches no modelled state). -/
def hsdpSeekStart (g : HsdpGeom) (u : HsdpUnit) (pos : DiskPos)
    (b0 b1 b2 b3 : Nat) : HsdpOut :=
  let star := ((b0 &&& 0xff) <<< 24) ||| ((b1 &&& 0xff) <<< 16) |||
              ((b2 &&& 0xff) <<< 8) ||| (b3 &&& 0xff)
  let u := { u with star := star }
  let cyl := star >>> 16
  let trk := b2 &&& 0xff
  let sec := b3 &&& 0xff
  if cyl > g.cyl ∨ trk ≥ g.nhds ∨ sec > g.spt then
    { unit := { u with cmd := clr32 u.cmd 0xffff,
                       sns := u.sns ||| SNS_CMDREJ ||| SNS_EQUCHK },
      pos := pos,
      chanEnd := some (SNS_CHNEND ||| SNS_DEVEND ||| SNS_UNITCHK),
      devAttn := none, delay := none }
  else
    let u := { u with cmd := u.cmd ||| DSK_STAR }
    let pos := { pos with tpos := trk, spos := sec }
    if (trk : Int) ≠ pos.cyl then
      { unit := { u with cmd := u.cmd ||| DSK_SEEKING }, pos := pos,
        chanEnd := some SNS_CHNEND, devAttn := none, delay := some 20 }
    else
      { unit := { u with cmd := clr32 u.cmd 0xffff }, pos := pos,
        chanEnd := some (SNS_DEVEND ||| SNS_CHNEND), devAttn := none,
        delay := some 20 }

/-- hsdp_srv, DSK_SCK: dispatch between the two seek sub-phases. -/
def hsdp_srv_seek (g : HsdpGeom) (u : HsdpUnit) (pos : DiskPos)
    (b0 b1 b2 b3 : Nat) : HsdpOut :=
  if u.cmd &&& DSK_SEEKING ≠ 0 then hsdpSeekPoll g u pos
  else hsdpSeekStart g u pos b0 b1 b2 b3

/-- The per-step cylinder deltas of the staircase: repeated
hsdpSeekPoll service steps until the on-cylinder completion step. -/
def hsdpSeekDeltas (g : HsdpGeom) (u : HsdpUnit) : Nat → DiskPos → List Int
  | 0, _ => []
  | fuel + 1, pos =>
    let o := hsdpSeekPoll g u pos
    if o.devAttn.isSome then []
    else (o.pos.cyl - pos.cyl) :: hsdpSeekDeltas g u fuel o.pos

/-- Result of hsdp_startcmd: updated unit, the channel after any sense
transfer, the returned status and the sim_activate delay if scheduled. -/
structure HsdpCmdOut where
  unit : HsdpUnit
  chan : Chan
  status : Nat
  delay : Option Nat
deriving Repr, DecidableEq

/-- hsdp_startcmd: the disk command dispatcher.  The INCH attribute
copy from main memory touches only the ATTR registers, which no claim
constrains, and is not modelled. -/
def hsdp_startcmd (u : HsdpUnit) (c : Chan) (cmd : Nat) : HsdpCmdOut :=
  if ¬u.attached ∧ cmd ≠ DSK_SNS then
    { unit := { u with sns := u.sns ||| SNS_INTVENT }, chan := c,
      status := SNS_CHNEND ||| SNS_DEVEND ||| SNS_UNITCHK, delay := none }
  else
    let u := if u.attached then u else { u with sns := u.sns ||| SNS_INTVENT }
    if u.cmd &&& DSK_CMDMSK ≠ 0 then
      { unit := { u with cmd := u.cmd ||| DSK_BUSY }, chan := c,
        status := SNS_BSY, delay := none }
    else if u.cmd &&& 0xff00 ≠ 0 then
      { unit := u, chan := c, status := SNS_BSY, delay := none }
    else if ¬u.attached then
      if cmd = DSK_SNS then
        let bytes := [(u.star >>> 24) &&& 0xff, (u.star >>> 16) &&& 0xff,
                      (u.star >>> 8) &&& 0xff, u.star &&& 0xff,
                      (u.sns >>> 24) &&& 0xff, (u.sns >>> 16) &&& 0xff,
                      (u.sns >>> 8) &&& 0xff, u.sns &&& 0xff,
                      (u.attr >>> 24) &&& 0xff, (u.attr >>> 16) &&& 0xff,
                      (u.attr >>> 8) &&& 0xff, u.attr &&& 0xff, 0, 0]
        { unit := { u with sns := u.sns &&& 0xff000000 },
          chan := chanWriteList c bytes,
          status := SNS_CHNEND ||| SNS_DEVEND, delay := none }
      else if cmd = 0 then
        { unit := u, chan := c,
          status := SNS_CHNEND ||| SNS_DEVEND ||| SNS_UNITCHK, delay := none }
      else
        { unit := { u with sns := u.sns ||| SNS_INTVENT ||| SNS_CMDREJ }, chan := c,
          status := SNS_CHNEND ||| SNS_DEVEND ||| SNS_UNITCHK, delay := none }
    else if cmd = DSK_SCK ∨ cmd = DSK_XEZ then
      { unit := { u with cmd := clr32 u.cmd DSK_STAR ||| cmd }, chan := c,
        status := 0, delay := some 20 }
    else if cmd = DSK_WD ∨ cmd = DSK_RD ∨ cmd = DSK_LMR ∨ cmd = DSK_NOP then
      { unit := { u with cmd := u.cmd ||| cmd }, chan := c,
        status := 0, delay := some 20 }
    else if cmd = DSK_SNS then
      let u := { u with cmd := u.cmd ||| cmd }
      if u.sns &&& 0xff ≠ 0 then
        { unit := u, chan := c,
          status := SNS_CHNEND ||| SNS_DEVEND ||| SNS_UNITCHK, delay := some 20 }
      else
        { unit := u, chan := c, status := SNS_CHNEND ||| SNS_DEVEND, delay := some 20 }
    else if cmd = DSK_INCH then
      { unit := { u with cmd := u.cmd ||| DSK_CMDMSK }, chan := c,
        status := 0, delay := some 20 }
    else
      if u.sns &&& 0xff ≠ 0 then
        { unit := u, chan := c,
          status := SNS_CHNEND ||| SNS_DEVEND ||| SNS_UNITCHK, delay := none }
      else
        { unit := u, chan := c, status := SNS_CHNEND ||| SNS_DEVEND, delay := some 20 }

/-- hsdp_srv, entry attach check plus the DSK_SNS arm: an unattached
unit first accumulates intervention-required (for Sense the entry
check does not end the command early), then the arm transfers the two
low-order sense bytes, a zero and the unit number (the dead store
ch = 4 after the last transfer is dropped), clears the status byte of
CMD (CMD &= ~0xff00) without touching SNS, and posts chan_end with
channel-end plus device-end; no new event is scheduled. -/
def hsdpSenseStep (u : HsdpUnit) (c : Chan) (unit : Nat) : HsdpCmdOut :=
  let u := if u.attached then u else { u with sns := u.sns ||| SNS_INTVENT }
  let c := chanWriteList c [u.sns &&& 0xff, (u.sns >>> 8) &&& 0xff, 0, unit]
  { unit := { u with cmd := clr32 u.cmd 0xff00 }, chan := c,
    status := SNS_CHNEND ||| SNS_DEVEND, delay := none }

/-- A disk unit together with its position cursor and its
pending-scheduled-callback marker. -/
structure HsdpSched where
  unit : HsdpUnit
  pos : DiskPos
  pending : Bool
deriving Repr, DecidableEq

/-- Modelled from the spec: detach_unit is simulator framework code
(scp.c), not under src/.  Per spec section 5 (Cancellation) and
section 6 (Scheduler `cancel(unit)`), detaching cancels the unit's
pending scheduled callback and unbinds the media. -/
def detach_unit (s : HsdpSched) : HsdpSched :=
  { s with unit := { s.unit with attached := false }, pending := false }

/-- hsdp_detach: free the DDATA position structure (not observable
here), clear the command and flag bits (CMD &= ~0xffff), then
detach_unit. -/
def hsdp_detach (s : HsdpSched) : HsdpSched :=
  detach_unit { s with unit := { s.unit with cmd := clr32 s.unit.cmd 0xffff } }

/-- hsdp_reset: the device reset routine body is empty
("add reset code here"; returns SCPE_OK without touching any unit). -/
def hsdp_reset (s : HsdpSched) : HsdpSched := s

end HSDP

/-! Concrete instances used by the claim theorems. -/

/-- A media environment whose responses are never consulted by the
steps under consideration. -/
def mtMediaNil : MT.MtMedia := ⟨[], .ok 0, .ok 0⟩

/-- Seek scenario state: STAR holds target cylinder 120, head 1,
sector 0, and the DSK_SEEKING staircase phase is active. -/
def seekUnit120 : HSDP.HsdpUnit :=
  ⟨true, HSDP.DSK_SCK ||| HSDP.DSK_STAR ||| HSDP.DSK_SEEKING,
   (120 <<< 16) ||| (1 <<< 8), 0, 0⟩

/-- C2 scenario: an in-bounds seek to (cylinder 5, head 0, sector 0)
issued while the unit sits at cylinder 5. -/
def c2out : HSDP.HsdpOut :=
  HSDP.hsdp_srv_seek (HSDP.hsdpTypeAt 3) ⟨true, HSDP.DSK_SCK, 0, 0, 0⟩ ⟨5, 0, 0⟩ 0 5 0 0

/-- C3 scenario: a seek to cylinder 800 on the MH300 geometry, whose
cylinder count is 800 (valid cylinders are 0..799). -/
def c3out : HSDP.HsdpOut :=
  HSDP.hsdp_srv_seek (HSDP.hsdpTypeAt 3) ⟨true, HSDP.DSK_SCK, 0, 0, 0⟩ ⟨0, 0, 0⟩
    0x03 0x20 0 0

/-- C4 scenario: a 9-track tape unit that has just suffered a command
reject, with a Sense command installed. -/
def c4s1 : MT.MtState :=
  ⟨⟨true, false, false, true, false, MT.MT_SENSE, 0, MT.SNS_CMDREJ, 0, 0⟩,
   ⟨[], 6, []⟩, [], true⟩

def c4o1 : MT.MtOut := MT.mt_srv mtMediaNil c4s1

def c4d2 : MT.MtCmdOut := MT.mt_startcmd c4o1.st.busy c4o1.st.unit MT.MT_SENSE

def c4o2 : MT.MtOut := MT.mt_srv mtMediaNil ⟨c4d2.unit, ⟨[], 6, []⟩, [], c4d2.busy⟩

/-- C6 scenario: a freshly dispatched 9-track write whose channel
still holds two data bytes. -/
def c6write9 : MT.MtState :=
  ⟨⟨true, false, false, true, false, MT.MT_WRITE, 0, 0, 0, MT.BUF_EMPTY_MARK⟩,
   ⟨[0x41, 0x42], 0, []⟩, [], true⟩

/-- C6 scenario: a 7-track write with the data converter on (odd
parity), the channel supplying the three data bytes 1, 2, 3. -/
def c6conv0 : MT.MtState :=
  ⟨⟨true, false, false, false, false, MT.MT_WRITE ||| MT.MT_ODD ||| MT.MT_CONV,
    0, 0, 0, MT.BUF_EMPTY_MARK⟩,
   ⟨[1, 2, 3], 0, []⟩, [], true⟩

def c6conv1 : MT.MtOut := MT.mt_srv mtMediaNil c6conv0

def c6conv2 : MT.MtOut := MT.mt_srv mtMediaNil c6conv1.st

def c6conv3 : MT.MtOut := MT.mt_srv mtMediaNil c6conv2.st

/-- C9 scenario: a disk unit with an active read command and a
pending scheduled callback. -/
def c9sched : HSDP.HsdpSched :=
  ⟨⟨true, HSDP.DSK_RD ||| HSDP.DSK_READING, 0, 0, 0⟩, ⟨3, 0, 0⟩, true⟩

/-- C9 scenario, tape side: an active read with a pending callback. -/
def c9mt : MT.MtSched :=
  ⟨⟨⟨true, false, false, true, false, MT.MT_READ, 0, 0, 0, 0⟩, ⟨[], 0, []⟩, [], true⟩, true⟩

/-- C10 scenario: a rewind dispatched to an unattached tape unit. -/
def c10disp : MT.MtCmdOut :=
  MT.mt_startcmd false ⟨false, false, false, true, false, 0, 0, 0, 0, 0⟩ MT.MT_REW

def c10srv : MT.MtOut :=
  MT.mt_srv mtMediaNil ⟨c10disp.unit, ⟨[], 0, []⟩, [], c10disp.busy⟩

/-! Bit-manipulation helper lemmas. -/

theorem orMaskDisjoint (a : Nat) {b c : Nat} (h : b &&& c = 0) :
    (a ||| b) &&& c = a &&& c := by
  rw [Nat.and_distrib_right, h, Nat.or_zero]

theorem andAndZero (a : Nat) {b c : Nat} (h : b &&& c = 0) :
    (a &&& b) &&& c = 0 := by
  rw [Nat.and_assoc, h, Nat.and_zero]

theorem andAndSub (a : Nat) {b c : Nat} (h : b &&& c = c) :
    (a &&& b) &&& c = a &&& c := by
  rw [Nat.and_assoc, h]

theorem orMaskHit (a : Nat) {b c : Nat} (h : b &&& c ≠ 0) :
    (a ||| b) &&& c ≠ 0 := by
  obtain ⟨i, hi⟩ := Nat.ne_zero_implies_bit_true h
  rw [Nat.testBit_and, Bool.and_eq_true] at hi
  intro h0
  have h1 : ((a ||| b) &&& c).testBit i = true := by
    rw [Nat.testBit_and, Nat.testBit_or, hi.1, hi.2, Bool.or_true, Bool.true_and]
  rw [h0, Nat.zero_testBit] at h1
  exact Bool.false_ne_true h1

theorem clrOrMask (a v : Nat) {m k : Nat} (h : (0xFFFFFFFF ^^^ m) &&& k = 0) :
    ((a &&& (0xFFFFFFFF ^^^ m)) ||| v) &&& k = v &&& k := by
  rw [Nat.and_distrib_right, andAndZero _ h, Nat.zero_or]

/-! Claim theorems. -/

/-- C1 (counterexample): seeking from cylinder 0 to cylinder 120 does
not traverse staircase steps of 50, 50 and 20 cylinders: after the
two 50-cylinder steps the remaining distance is exactly 20, and the
source takes a 20-cylinder step only when the remaining distance is
strictly greater than 20 (`i > 20`), so the seek continues with twenty
single-cylinder steps. -/
theorem C1_staircase_0_to_120_not_50_50_20 :
    HSDP.hsdpSeekDeltas (HSDP.hsdpTypeAt 3) seekUnit120 30 ⟨0, 0, 0⟩ ≠ [50, 50, 20] ∧
    HSDP.hsdpSeekDeltas (HSDP.hsdpTypeAt 3) seekUnit120 30 ⟨0, 0, 0⟩ =
      [50, 50] ++ List.replicate 20 1 := by
  decide

/-- C2: hsdp_srv decides "already on the target cylinder" with
`trk != data->cyl`, comparing the head byte against the current
cylinder, although its own comment reads "Check if already on correct
cylinder".  With the unit at cylinder 5 and an in-bounds seek to
(cylinder 5, head 0, sector 0), the target cylinder equals the current
cylinder, yet the DSK_SEEKING staircase phase is entered and only
channel-end is posted, instead of the synchronous channel-end plus
device-end completion the claim states. -/
theorem C2_seek_same_cylinder_enters_staircase :
    c2out.unit.cmd &&& HSDP.DSK_SEEKING ≠ 0 ∧
    c2out.chanEnd = some SNS_CHNEND ∧
    c2out.devAttn = none := by
  decide

/-- C3 (counterexample): on the MH300 geometry (800 cylinders, valid
indices 0..799) a seek whose target cylinder is 800 -- at the cylinder
count, hence out of bounds -- is accepted: the bounds check uses
`cyl > hsdp_type[type].cyl`, so no CommandReject or EquipmentCheck is
raised and no unit-check is returned. -/
theorem C3_seek_at_cylinder_count_accepted :
    c3out.unit.sns &&& HSDP.SNS_CMDREJ = 0 ∧
    c3out.unit.sns &&& HSDP.SNS_EQUCHK = 0 ∧
    c3out.chanEnd = some (SNS_DEVEND ||| SNS_CHNEND) := by
  decide

/-- C4 (counterexample): after a command reject the first tape Sense
reports the CommandReject bit in sense byte 0, but the Sense service
step leaves u5 unchanged, so a second Sense (dispatched through
mt_startcmd, which does not clear the sense register for a Sense
command) still reports CommandReject set -- the claim's "a subsequent
Sense reads it as clear" fails on the code. -/
theorem C4_mt_second_sense_still_reports_cmdrej :
    c4o1.st.chan.got = [0x80, 0, 0xc0, 0, 0, 0] ∧
    c4o1.st.unit.u5 = MT.SNS_CMDREJ ∧
    c4o2.st.chan.got = [0x80, 0, 0xc0, 0, 0, 0] := by
  decide

/-- C6: in mt_srv's write case the source `break`s out of the switch
right after buffering a data byte, skipping the `sim_activate(uptr,
20)` at the bottom of the case: the step posts no completion, buffers
only the first byte and schedules no further service step, so the
record is never committed to tape (sim_tape_wrrecf is never reached)
and the written bytes can never be read back.  Additionally, the
7-track data converter's third write phase overwrites the channel
byte, so the fourth tape frame repeats the third (buffer
0x00 0x50 0x48 0x48 for data bytes 1 2 3) instead of carrying the
third byte's low six bits, which the read converter expects there. -/
theorem C6_write_stalls_and_converter_drops_frame :
    ((MT.mt_srv mtMediaNil c6write9).delay = none ∧
     (MT.mt_srv mtMediaNil c6write9).chanEnd = none ∧
     (MT.mt_srv mtMediaNil c6write9).devAttn = none ∧
     (MT.mt_srv mtMediaNil c6write9).wrote = none ∧
     (MT.mt_srv mtMediaNil c6write9).st.unit.u3 &&& MT.MT_CMDMSK = MT.MT_WRITE ∧
     (MT.mt_srv mtMediaNil c6write9).st.buffer = [0x41] ∧
     (MT.mt_srv mtMediaNil c6write9).st.chan.input = [0x42]) ∧
    (c6conv3.st.buffer = [0x00, 0x50, 0x48, 0x48] ∧
     c6conv3.delay = none) := by
  decide

/-- C9 (counterexample): the claim includes device reset among the
operations that clear the unit's command and cancel its pending
callback, but both reset routines are empty (hsdp_reset's body is the
comment "add reset code here"): after a reset the unit still has its
active command and its pending scheduled callback. -/
theorem C9_reset_leaves_command_active :
    (HSDP.hsdp_reset c9sched).unit.cmd &&& HSDP.DSK_CMDMSK ≠ 0 ∧
    (HSDP.hsdp_reset c9sched).pending = true ∧
    (MT.mt_reset c9mt).st.unit.u3 &&& MT.MT_CMDMSK ≠ 0 ∧
    (MT.mt_reset c9mt).pending = true := by
  decide

/-- C10 (counterexample): a rewind dispatched to an unattached tape
unit is accepted (channel-end alone is returned and the command is
installed), but its terminal completion is posted through chan_end --
the normal completion call -- with unit-check, not through the
decoupled attention path, refuting the claim for unattached units. -/
theorem C10_unattached_rewind_completes_via_chan_end :
    c10disp.status = SNS_CHNEND ∧
    c10disp.unit.u3 &&& MT.MT_CMDMSK = MT.MT_REW ∧
    c10srv.chanEnd = some (SNS_CHNEND ||| SNS_DEVEND ||| SNS_UNITCHK) ∧
    c10srv.devAttn = none := by
  decide

/-- C1 (amended): a staircase service step moves the position cursor
by 50 cylinders while the remaining distance is strictly greater than
50, by 20 while it is strictly greater than 20 (and at most 50), and
by a single cylinder otherwise, in both seek directions; consequently
a seek from cylinder 0 to cylinder 120 on a 16-sectors/track geometry
traverses two 50-cylinder steps followed by twenty single-cylinder
steps before the on-cylinder completion. -/
theorem C1_seek_staircase_banding (g : HSDP.HsdpGeom) (u : HSDP.HsdpUnit)
    (pos : HSDP.DiskPos)
    (htar : ((u.star >>> 16 : Nat) : Int) < (g.cyl : Int))
    (hne : pos.cyl ≠ ((u.star >>> 16 : Nat) : Int)) :
    ((HSDP.hsdpSeekPoll g u pos).pos.cyl - pos.cyl =
      (let d := ((u.star >>> 16 : Nat) : Int) - pos.cyl
       if 50 < d then 50 else if 20 < d then 20 else if 0 < d then 1
       else if d < -50 then -50 else if d < -20 then -20 else -1)) ∧
    HSDP.hsdpSeekDeltas (HSDP.hsdpTypeAt 3) seekUnit120 30 ⟨0, 0, 0⟩ =
      [50, 50] ++ List.replicate 20 1 := by
  constructor
  · have hnn : (0 : Int) ≤ ((u.star >>> 16 : Nat) : Int) := Int.natCast_nonneg _
    simp only [HSDP.hsdpSeekPoll]
    split_ifs <;> simp_all <;> omega
  · decide

theorem C1_seek_staircase_banding_witness :
    (HSDP.hsdpSeekPoll (HSDP.hsdpTypeAt 3) seekUnit120 ⟨0, 0, 0⟩).pos.cyl -
      (⟨0, 0, 0⟩ : HSDP.DiskPos).cyl = 50 :=
  (C1_seek_staircase_banding (HSDP.hsdpTypeAt 3) seekUnit120 ⟨0, 0, 0⟩
    (by decide) (by decide)).1.trans (by decide)

/-- C3 (amended): a seek whose 4-byte target has cylinder strictly
greater than the geometry's cylinder count, or head at or beyond the
head count, or sector strictly greater than the sectors-per-track,
terminates with unit-check, sets the CommandReject and EquipmentCheck
sense bits, clears the command and leaves the position cursor
(cylinder, track, sector) unchanged. -/
theorem C3_seek_out_of_bounds_reject (g : HSDP.HsdpGeom) (u : HSDP.HsdpUnit)
    (pos : HSDP.DiskPos) (b0 b1 b2 b3 : Nat)
    (hsk : u.cmd &&& HSDP.DSK_SEEKING = 0)
    (hoob : (((b0 &&& 0xff) <<< 24 ||| (b1 &&& 0xff) <<< 16 |||
              (b2 &&& 0xff) <<< 8 ||| (b3 &&& 0xff)) >>> 16) > g.cyl ∨
            (b2 &&& 0xff) ≥ g.nhds ∨ (b3 &&& 0xff) > g.spt) :
    (HSDP.hsdp_srv_seek g u pos b0 b1 b2 b3).chanEnd =
      some (SNS_CHNEND ||| SNS_DEVEND ||| SNS_UNITCHK) ∧
    (HSDP.hsdp_srv_seek g u pos b0 b1 b2 b3).unit.sns =
      u.sns ||| HSDP.SNS_CMDREJ ||| HSDP.SNS_EQUCHK ∧
    (HSDP.hsdp_srv_seek g u pos b0 b1 b2 b3).pos = pos ∧
    (HSDP.hsdp_srv_seek g u pos b0 b1 b2 b3).unit.cmd &&& 0xffff = 0 := by
  simp only [HSDP.hsdp_srv_seek, HSDP.hsdpSeekStart]
  rw [if_neg (by simp [hsk])]
  rw [if_pos hoob]
  refine ⟨rfl, rfl, rfl, ?_⟩
  simp only [clr32]
  exact andAndZero _ (by decide)

theorem C3_seek_out_of_bounds_reject_witness :
    (HSDP.hsdp_srv_seek (HSDP.hsdpTypeAt 3) ⟨true, HSDP.DSK_SCK, 0, 0, 0⟩
      ⟨3, 1, 2⟩ 0x03 0x21 0 0).unit.sns =
      0 ||| HSDP.SNS_CMDREJ ||| HSDP.SNS_EQUCHK :=
  (C3_seek_out_of_bounds_reject (HSDP.hsdpTypeAt 3) ⟨true, HSDP.DSK_SCK, 0, 0, 0⟩
    ⟨3, 1, 2⟩ 0x03 0x21 0 0 (by decide) (by decide)).2.1

/-- C7: a start command arriving while the tape unit already has an
active command or while the controller's shared buffer is held returns
Busy and ORs the MT_BUSY retry marker into the unit's flags, without
installing the command or scheduling a service event; likewise the
disk dispatcher returns Busy and sets the DSK_BUSY retry marker when
the unit has an active command, installing and scheduling nothing. -/
theorem C7_busy_start_rejected (busy : Bool) (u : MT.MtUnit) (cmd : Nat)
    (v : HSDP.HsdpUnit) (c : Chan) (cmd2 : Nat)
    (hb : busy = true ∨ u.u3 &&& MT.MT_CMDMSK ≠ 0)
    (hv : v.attached = true) (hvb : v.cmd &&& HSDP.DSK_CMDMSK ≠ 0) :
    ((MT.mt_startcmd busy u cmd).status = SNS_BSY ∧
     (MT.mt_startcmd busy u cmd).unit.fbusy = true ∧
     (MT.mt_startcmd busy u cmd).unit.u3 = u.u3 ∧
     (MT.mt_startcmd busy u cmd).delay = none) ∧
    ((HSDP.hsdp_startcmd v c cmd2).status = SNS_BSY ∧
     (HSDP.hsdp_startcmd v c cmd2).unit.cmd = v.cmd ||| HSDP.DSK_BUSY ∧
     (HSDP.hsdp_startcmd v c cmd2).delay = none) := by
  constructor
  · rcases hb with hb | hb <;>
      simp [MT.mt_startcmd, hb]
  · simp [HSDP.hsdp_startcmd, hv, hvb]

theorem C7_busy_start_rejected_witness :
    (MT.mt_startcmd true ⟨true, false, false, true, false, 0, 0, 0, 0, 0⟩
      MT.MT_READ).status = SNS_BSY :=
  (C7_busy_start_rejected true ⟨true, false, false, true, false, 0, 0, 0, 0, 0⟩
    MT.MT_READ ⟨true, HSDP.DSK_RD, 0, 0, 0⟩ ⟨[], 0, []⟩ HSDP.DSK_WD
    (Or.inl rfl) rfl (by decide)).1.1

/-- C9 (amended): detaching a unit immediately clears its command and
phase state and cancels the pending scheduled callback -- the
cancellation itself happens inside sim_tape_detach / detach_unit,
which are framework code modelled from the spec -- so with the command
cleared and no pending callback, no further service step for the old
command can ever fire.  Device reset is excluded from the claim: both
reset routines are empty (see the counterexample). -/
theorem C9_detach_clears_and_cancels (s : MT.MtSched) (t : HSDP.HsdpSched) :
    ((MT.mt_detach s).st.unit.u3 = 0 ∧
     (MT.mt_detach s).pending = false ∧
     (MT.mt_detach s).st.unit.attached = false) ∧
    ((HSDP.hsdp_detach t).unit.cmd &&& 0xffff = 0 ∧
     (HSDP.hsdp_detach t).pending = false ∧
     (HSDP.hsdp_detach t).unit.attached = false) := by
  refine ⟨⟨rfl, rfl, rfl⟩, ?_, rfl, rfl⟩
  show clr32 t.unit.cmd 0xffff &&& 0xffff = 0
  simp only [clr32]
  exact andAndZero _ (by decide)

theorem mtReadDeliver_drain (s : MT.MtState) (u : MT.MtUnit) (buf : List Nat)
    (ch : Nat) (hstop : s.chan.accept = 0) (hmid : u.u4 < u.hwmark) :
    (MT.mtReadDeliver s u buf ch).chanEnd = none ∧
    (MT.mtReadDeliver s u buf ch).devAttn = none ∧
    (MT.mtReadDeliver s u buf ch).delay = some ((u.hwmark - u.u4) * 20) ∧
    (MT.mtReadDeliver s u buf ch).st.unit.u3 = u.u3 ||| MT.MT_READDONE := by
  simp [MT.mtReadDeliver, chan_write_byte, hstop, hmid]

theorem mtReadStep_drain (m : MT.MtMedia) (s : MT.MtState)
    (hrd : s.unit.u3 &&& MT.MT_READDONE = 0)
    (hne : s.unit.hwmark ≠ MT.BUF_EMPTY_MARK)
    (hstop : s.chan.accept = 0)
    (hmid : s.unit.u4 + 1 < s.unit.hwmark)
    (hconv : s.unit.ninetrk = true ∨ s.unit.u3 &&& MT.MT_CONV = 0 ∨ s.unit.u6 ≠ 0) :
    (MT.mtReadStep m s).chanEnd = none ∧
    (MT.mtReadStep m s).devAttn = none ∧
    (MT.mtReadStep m s).st.unit.u3 = s.unit.u3 ||| MT.MT_READDONE ∧
    (MT.mtReadStep m s).delay = some ((s.unit.hwmark - (s.unit.u4 + 1)) * 20) := by
  obtain ⟨⟨att, wl, bo, ntrk, fb2, u3, u4, u5, u6, hw⟩, ⟨inp, acc, got⟩, buf, bz⟩ := s
  dsimp only at hrd hne hstop hmid hconv ⊢
  subst hstop
  cases ntrk
  case true =>
    simp [MT.mtReadStep, MT.mtReadDeliver, chan_write_byte, hrd, hne, hmid]
  case false =>
    rcases hconv with h | h | h
    · exact absurd h (by simp)
    all_goals
      simp [MT.mtReadStep, MT.mtReadDeliver, chan_write_byte, hrd, hne, hmid, h]
      try (split_ifs <;> simp [MT.mtReadDeliver, chan_write_byte, hmid])

/-- C5: if during a tape Read the channel refuses the next byte while
the buffered record's high-water mark has not been reached, the
service step posts no completion, keeps the Read command installed,
enters the MT_READDONE drain sub-phase and reschedules with a delay
proportional to the remaining record bytes; the subsequent service
step -- and only it -- posts the terminal CHANNEL-END|DEVICE-END and
clears the command.  The command therefore never terminates
mid-record. -/
theorem C5_read_drain_never_mid_record
    (m : MT.MtMedia) (wlk bot ntrk fb : Bool) (u3 u4 u5 u6 : Nat)
    (buf got0 inp : List Nat) (bz : Bool) (w : MT.MtState)
    (hcmd : u3 &&& MT.MT_CMDMSK = MT.MT_READ)
    (hrd : u3 &&& MT.MT_READDONE = 0)
    (hsent : buf.length < MT.BUF_EMPTY_MARK)
    (hmid : u4 + 1 < buf.length)
    (hconv : ntrk = true ∨ u3 &&& MT.MT_CONV = 0 ∨ u6 ≠ 0)
    (hatt2 : w.unit.attached = true)
    (hcmd2 : w.unit.u3 &&& MT.MT_CMDMSK = MT.MT_READ)
    (hrd2 : w.unit.u3 &&& MT.MT_READDONE ≠ 0) :
    (let s : MT.MtState := ⟨⟨true, wlk, bot, ntrk, fb, u3, u4, u5, u6, buf.length⟩,
       ⟨inp, 0, got0⟩, buf, bz⟩
     (MT.mt_srv m s).chanEnd = none ∧
     (MT.mt_srv m s).devAttn = none ∧
     (MT.mt_srv m s).st.unit.u3 &&& MT.MT_READDONE ≠ 0 ∧
     (MT.mt_srv m s).st.unit.u3 &&& MT.MT_CMDMSK = MT.MT_READ ∧
     (MT.mt_srv m s).delay = some ((buf.length - (u4 + 1)) * 20)) ∧
    ((MT.mt_srv m w).chanEnd = some (SNS_CHNEND ||| SNS_DEVEND) ∧
     (MT.mt_srv m w).st.unit.u3 &&& MT.MT_CMDMSK = 0 ∧
     (MT.mt_srv m w).delay = none) := by
  have hne : buf.length ≠ MT.BUF_EMPTY_MARK := Nat.ne_of_lt hsent
  constructor
  · intro s
    have hstep : MT.mt_srv m s = MT.mtReadStep m s := by
      simp +decide [MT.mt_srv, hcmd]
    rw [hstep]
    have h := mtReadStep_drain m s hrd (by simpa using hne) rfl (by simpa using hmid)
      (by simpa using hconv)
    refine ⟨h.1, h.2.1, ?_, ?_, by simpa using h.2.2.2⟩
    · rw [h.2.2.1]
      exact orMaskHit _ (by decide)
    · rw [h.2.2.1, orMaskDisjoint _ (by decide)]
      exact hcmd
  · have hstep : MT.mt_srv m w = MT.mtReadStep m w := by
      simp +decide [MT.mt_srv, hatt2, hcmd2]
    rw [hstep]
    simp only [MT.mtReadStep]
    rw [if_pos hrd2]
    refine ⟨rfl, ?_, rfl⟩
    show clr32 w.unit.u3 (MT.MT_CMDMSK ||| MT.MT_READDONE) &&& MT.MT_CMDMSK = 0
    simp only [clr32]
    exact andAndZero _ (by decide)

theorem C5_read_drain_never_mid_record_witness :
    (MT.mt_srv mtMediaNil ⟨⟨true, false, false, true, false,
        MT.MT_READ ||| MT.MT_READDONE, 3, 0, 0, 5⟩, ⟨[], 0, []⟩,
        [10, 20, 30, 40, 50], true⟩).chanEnd = some (SNS_CHNEND ||| SNS_DEVEND) :=
  (C5_read_drain_never_mid_record mtMediaNil false false true false MT.MT_READ 1 0 0
    [10, 20, 30, 40, 50] [] [] true
    ⟨⟨true, false, false, true, false, MT.MT_READ ||| MT.MT_READDONE, 3, 0, 0, 5⟩,
     ⟨[], 0, []⟩, [10, 20, 30, 40, 50], true⟩
    (by decide) (by decide) (by decide) (by decide) (Or.inl rfl)
    rfl (by decide) (by decide)).2.1

/-- C4 (amended): accumulated sense bits persist until overwritten,
but the clearing behaviour differs from the claim on both controllers.
(a) The tape Sense service transfers the six sense bytes in fixed
order and leaves the sense register u5 unchanged, so after a command
reject every further Sense still reports CommandReject; (b) u5 is
reset only when the next motion/read/write command is dispatched,
which installs a fresh pre-state snapshot whose error byte is clear;
(c) the disk Sense service step for an attached unit transfers only
the two low-order sense bytes plus a zero and the unit number -- the
byte holding CommandReject (bit 23 of SNS) is not among them -- and
leaves SNS itself unchanged, so a command reject on an attached disk
unit is neither reported by Sense nor cleared by it; (d) only the disk
dispatcher's Sense for an unattached unit transfers its fourteen sense
bytes in fixed order and then clears the error-class bytes while
preserving the mode byte (SNS &= 0xff000000), so there CommandReject
is reported once and reads clear on the next Sense. -/
theorem C4_sense_persistence
    (m : MT.MtMedia) (wlk bot ntrk fb : Bool) (u3 u4 u5 u6 hw : Nat)
    (got0 buf : List Nat) (bz : Bool) (cmdw : Nat)
    (w w2 : HSDP.HsdpUnit) (un : Nat) (cin cgot cgot2 : List Nat)
    (hcmd : u3 &&& MT.MT_CMDMSK = MT.MT_SENSE)
    (hk : cmdw &&& 0xF = 0x1 ∨ cmdw &&& 0xF = 0x2 ∨ cmdw &&& 0xF = 0x7 ∨
          cmdw &&& 0xF = 0xc ∨ cmdw &&& 0xF = 0xf)
    (hw1 : w.attached = false)
    (hwidle : w.cmd &&& HSDP.DSK_CMDMSK = 0)
    (hwst : w.cmd &&& 0xff00 = 0)
    (hw2 : w2.attached = true) :
    (let s : MT.MtState := ⟨⟨true, wlk, bot, ntrk, fb, u3, u4, u5, u6, hw⟩,
       ⟨[], 6, got0⟩, buf, bz⟩
     (MT.mt_srv m s).st.unit.u5 = u5 ∧
     (MT.mt_srv m s).st.chan.got = got0 ++ [u5 &&& 0xff, (u5 >>> 8) &&& 0xff, 0xc0,
       (u5 >>> 16) &&& 0xff, 0, 0] ∧
     (MT.mt_srv m s).chanEnd = some (SNS_CHNEND ||| SNS_DEVEND)) ∧
    (∀ v : MT.MtUnit, v.u3 &&& MT.MT_CMDMSK = 0 →
      (MT.mt_startcmd false v cmdw).unit.u5 &&& 0xff = 0) ∧
    ((HSDP.hsdp_startcmd w ⟨cin, 14, cgot⟩ HSDP.DSK_SNS).chan.got =
       cgot ++ [(w.star >>> 24) &&& 0xff, (w.star >>> 16) &&& 0xff,
         (w.star >>> 8) &&& 0xff, w.star &&& 0xff,
         ((w.sns ||| HSDP.SNS_INTVENT) >>> 24) &&& 0xff,
         ((w.sns ||| HSDP.SNS_INTVENT) >>> 16) &&& 0xff,
         ((w.sns ||| HSDP.SNS_INTVENT) >>> 8) &&& 0xff,
         (w.sns ||| HSDP.SNS_INTVENT) &&& 0xff,
         (w.attr >>> 24) &&& 0xff, (w.attr >>> 16) &&& 0xff,
         (w.attr >>> 8) &&& 0xff, w.attr &&& 0xff, 0, 0] ∧
     (HSDP.hsdp_startcmd w ⟨cin, 14, cgot⟩ HSDP.DSK_SNS).unit.sns =
       (w.sns ||| HSDP.SNS_INTVENT) &&& 0xff000000 ∧
     (HSDP.hsdp_startcmd w ⟨cin, 14, cgot⟩ HSDP.DSK_SNS).unit.sns &&&
       HSDP.SNS_CMDREJ = 0 ∧
     (HSDP.hsdp_startcmd w ⟨cin, 14, cgot⟩ HSDP.DSK_SNS).status =
       SNS_CHNEND ||| SNS_DEVEND) ∧
    ((HSDP.hsdpSenseStep w2 ⟨cin, 4, cgot2⟩ un).unit.sns = w2.sns ∧
     (HSDP.hsdpSenseStep w2 ⟨cin, 4, cgot2⟩ un).chan.got =
       cgot2 ++ [w2.sns &&& 0xff, (w2.sns >>> 8) &&& 0xff, 0, un &&& 0xff] ∧
     (HSDP.hsdpSenseStep w2 ⟨cin, 4, cgot2⟩ un).status =
       SNS_CHNEND ||| SNS_DEVEND) := by
  refine ⟨?_, ?_, ?_, ?_⟩
  · intro s
    have hstep : MT.mt_srv m s = MT.mtSenseStep s := by
      simp +decide [MT.mt_srv, hcmd]
    rw [hstep]
    refine ⟨rfl, ?_, rfl⟩
    simp +decide [MT.mtSenseStep, chanWriteList, chan_write_byte, Nat.and_assoc]
  · intro v hv
    rcases hk with h | h | h | h | h <;>
      · simp +decide [MT.mt_startcmd, MT.mtInstall, hv, h]
        split_ifs <;> decide
  · simp +decide [HSDP.hsdp_startcmd, hw1, hwidle, hwst, chanWriteList,
      chan_write_byte, Nat.and_assoc, HSDP.SNS_CMDREJ]
    rw [show (4278190080 &&& 8388608 : Nat) = 0 by decide, Nat.and_zero]
  · simp +decide [HSDP.hsdpSenseStep, hw2, chanWriteList, chan_write_byte,
      Nat.and_assoc]

theorem C4_sense_persistence_witness :
    (MT.mt_srv mtMediaNil ⟨⟨true, false, false, true, false, MT.MT_SENSE, 0, 0x80, 0, 0⟩,
      ⟨[], 6, []⟩, [], true⟩).st.unit.u5 = 0x80 :=
  (C4_sense_persistence mtMediaNil false false true false MT.MT_SENSE 0 0x80 0 0
    [] [] true MT.MT_READ ⟨false, 0, 0, 0x80800000, 0⟩ ⟨true, 4, 0, 0x800000, 0⟩
    1 [] [] []
    (by decide) (Or.inr (Or.inl (by decide))) rfl (by decide) (by decide) rfl).1.1

theorem snsByteHasIntvent (x : Nat) :
    (((x ||| 0x400000) >>> 16) &&& 0xff) &&& 0x40 ≠ 0 := by
  have h : ((((x ||| 0x400000) >>> 16) &&& 0xff) &&& 0x40).testBit 6 = true := by
    simp +decide [Nat.testBit_and, Nat.testBit_shiftRight, Nat.testBit_or]
  intro h0
  rw [h0, Nat.zero_testBit] at h
  exact Bool.false_ne_true h

/-- C8: on an unattached unit, any non-Sense service terminates
immediately with unit-check (command cleared, intervention-required
recorded), while Sense is accepted and completes normally with the
intervention-required bit reported in the transferred sense bytes;
likewise the disk dispatcher immediately returns unit-check for any
non-Sense command on an unattached unit, and accepts Sense, completing
with channel-end plus device-end and intervention-required in the
transferred sense byte 5. -/
theorem C8_unattached_sense_vs_other
    (m : MT.MtMedia) (wlk bot ntrk fb : Bool) (u3 u4 u5 u6 hw : Nat)
    (got0 buf : List Nat) (bz : Bool)
    (w : HSDP.HsdpUnit) (cin cgot : List Nat) (cmd2 : Nat)
    (hns : u3 &&& MT.MT_CMDMSK ≠ MT.MT_SENSE)
    (hw1 : w.attached = false) (hc2 : cmd2 ≠ HSDP.DSK_SNS) :
    (let s : MT.MtState := ⟨⟨false, wlk, bot, ntrk, fb, u3, u4, u5, u6, hw⟩,
       ⟨[], 6, got0⟩, buf, bz⟩
     (MT.mt_srv m s).chanEnd = some (SNS_CHNEND ||| SNS_DEVEND ||| SNS_UNITCHK) ∧
     (MT.mt_srv m s).st.unit.u3 &&& MT.MT_CMDMSK = 0 ∧
     (MT.mt_srv m s).st.unit.u5 &&& MT.SNS_INTVENT ≠ 0) ∧
    (let s : MT.MtState := ⟨⟨false, wlk, bot, ntrk, fb, MT.MT_SENSE, u4, u5, u6, hw⟩,
       ⟨[], 6, got0⟩, buf, bz⟩
     (MT.mt_srv m s).chanEnd = some (SNS_CHNEND ||| SNS_DEVEND) ∧
     (MT.mt_srv m s).st.chan.got = got0 ++ [(u5 ||| MT.SNS_INTVENT) &&& 0xff,
       ((u5 ||| MT.SNS_INTVENT) >>> 8) &&& 0xff, 0xc0,
       ((u5 ||| MT.SNS_INTVENT) >>> 16) &&& 0xff, 0, 0] ∧
     ((u5 ||| MT.SNS_INTVENT) &&& 0xff) &&& MT.SNS_INTVENT ≠ 0) ∧
    ((HSDP.hsdp_startcmd w ⟨cin, 14, cgot⟩ cmd2).status =
       SNS_CHNEND ||| SNS_DEVEND ||| SNS_UNITCHK ∧
     (HSDP.hsdp_startcmd w ⟨cin, 14, cgot⟩ cmd2).unit.sns &&& HSDP.SNS_INTVENT ≠ 0 ∧
     (HSDP.hsdp_startcmd w ⟨cin, 14, cgot⟩ cmd2).delay = none) ∧
    (w.cmd &&& HSDP.DSK_CMDMSK = 0 → w.cmd &&& 0xff00 = 0 →
      (HSDP.hsdp_startcmd w ⟨cin, 14, cgot⟩ HSDP.DSK_SNS).status =
        SNS_CHNEND ||| SNS_DEVEND ∧
      (((w.sns ||| HSDP.SNS_INTVENT) >>> 16) &&& 0xff) &&& 0x40 ≠ 0) := by
  refine ⟨?_, ?_, ?_, ?_⟩
  · intro s
    refine ⟨?_, ?_, ?_⟩
    · simp +decide [MT.mt_srv, hns]
    · have : (MT.mt_srv m s).st.unit.u3 = clr32 u3 MT.MT_CMDMSK := by
        simp +decide [MT.mt_srv, hns]
      rw [this]
      simp only [clr32]
      exact andAndZero _ (by decide)
    · have : (MT.mt_srv m s).st.unit.u5 = u5 ||| MT.SNS_INTVENT := by
        simp +decide [MT.mt_srv, hns]
      rw [this]
      exact orMaskHit _ (by decide)
  · intro s
    refine ⟨?_, ?_, ?_⟩
    · simp +decide [MT.mt_srv, MT.mtSenseStep]
    · simp +decide [MT.mt_srv, MT.mtSenseStep, chanWriteList, chan_write_byte,
        Nat.and_assoc]
    · rw [Nat.and_assoc]
      exact orMaskHit _ (by decide)
  · refine ⟨?_, ?_, ?_⟩
    · simp +decide [HSDP.hsdp_startcmd, hw1, hc2]
    · have : (HSDP.hsdp_startcmd w ⟨cin, 14, cgot⟩ cmd2).unit.sns =
          w.sns ||| HSDP.SNS_INTVENT := by
        simp +decide [HSDP.hsdp_startcmd, hw1, hc2]
      rw [this]
      exact orMaskHit _ (by decide)
    · simp +decide [HSDP.hsdp_startcmd, hw1, hc2]
  · intro h1 h2
    refine ⟨?_, snsByteHasIntvent w.sns⟩
    simp +decide [HSDP.hsdp_startcmd, hw1, h1, h2]

theorem C8_unattached_sense_vs_other_witness :
    (HSDP.hsdp_startcmd ⟨false, 0, 0, 0, 0⟩ ⟨[], 14, []⟩ HSDP.DSK_RD).status =
      SNS_CHNEND ||| SNS_DEVEND ||| SNS_UNITCHK :=
  (C8_unattached_sense_vs_other mtMediaNil false false true false
    MT.MT_READ 0 0 0 0 [] [] true ⟨false, 0, 0, 0, 0⟩ [] [] HSDP.DSK_RD
    (by decide) rfl (by decide)).2.2.1.1

theorem clr32_mtcmd (a : Nat) : clr32 a MT.MT_CMDMSK &&& MT.MT_CMDMSK = 0 := by
  simp only [clr32]
  exact andAndZero _ (by decide)

theorem mt_startcmd_install (u : MT.MtUnit) (cmdw : Nat)
    (hidle : u.u3 &&& MT.MT_CMDMSK = 0)
    (hk : cmdw &&& 0xF = 0x7 ∨ cmdw &&& 0xF = 0xf ∨ cmdw &&& 0xF = 0x1 ∨
          cmdw &&& 0xF = 0x2 ∨ cmdw &&& 0xF = 0xc) :
    (MT.mt_startcmd false u cmdw).unit.u3 =
      clr32 u.u3 MT.MT_CMDMSK ||| (cmdw &&& MT.MT_CMDMSK) ∧
    (MT.mt_startcmd false u cmdw).delay = some 1000 ∧
    (MT.mt_startcmd false u cmdw).status =
      (if cmdw &&& 0x7 = 0x7 then SNS_CHNEND else 0) := by
  rcases hk with h | h | h | h | h <;>
    simp +decide [MT.mt_startcmd, MT.mtInstall, hidle, h]

theorem mtMotionStep_attention (m : MT.MtMedia) (s : MT.MtState)
    (hcmd : s.unit.u3 &&& MT.MT_CMDMSK = MT.MT_REW ∨
            s.unit.u3 &&& MT.MT_CMDMSK = MT.MT_RUN ∨
            s.unit.u3 &&& MT.MT_CMDMSK = MT.MT_ERG ∨
            s.unit.u3 &&& MT.MT_CMDMSK = MT.MT_WTM ∨
            s.unit.u3 &&& MT.MT_CMDMSK = MT.MT_BSR ∨
            s.unit.u3 &&& MT.MT_CMDMSK = MT.MT_BSF ∨
            s.unit.u3 &&& MT.MT_CMDMSK = MT.MT_FSR ∨
            s.unit.u3 &&& MT.MT_CMDMSK = MT.MT_FSF) :
    (MT.mtMotionStep m s).chanEnd = none ∧
    ((MT.mtMotionStep m s).st.unit.u3 &&& MT.MT_CMDMSK = 0 →
      ∃ f, (MT.mtMotionStep m s).devAttn = some f ∧ f &&& SNS_DEVEND ≠ 0) := by
  obtain ⟨⟨att, wl, bo, ntrk, fb2, u3, u4, u5, u6, hw⟩, ch, buf, bz⟩ := s
  dsimp only at hcmd ⊢
  rcases hcmd with h | h | h | h | h | h | h | h
  · rcases u4 with _ | n4 <;>
      simp +decide [MT.mtMotionStep, clr32_mtcmd, h]
  · rcases u4 with _ | n4 <;>
      simp +decide [MT.mtMotionStep, clr32_mtcmd, h]
  · rcases u4 with _ | _ | n4 <;> cases wl <;>
      simp +decide [MT.mtMotionStep, clr32_mtcmd, h, MT.mtNoop]
  · rcases u4 with _ | n4 <;> cases wl <;>
      simp +decide [MT.mtMotionStep, clr32_mtcmd, h, MT.mtNoop]
  · rcases u4 with _ | _ | _ | _ | n4 <;> cases bo <;>
      rcases hr : m.spaceR with nr | _ | _ | _ <;>
      simp +decide [MT.mtMotionStep, clr32_mtcmd, h, hr, MT.SpaceRes.len, MT.mtNoop]
  · rcases u4 with _ | _ | _ | _ | n4 <;> cases bo <;>
      rcases hr : m.spaceR with nr | _ | _ | _ <;>
      simp +decide [MT.mtMotionStep, clr32_mtcmd, h, hr, MT.SpaceRes.len, MT.mtNoop]
  · rcases u4 with _ | _ | _ | _ | _ | n4 <;>
      rcases hf : m.spaceF with nf | _ | _ | _ <;>
      simp +decide [MT.mtMotionStep, clr32_mtcmd, h, hf, MT.SpaceRes.len, MT.mtNoop]
  · rcases u4 with _ | _ | _ | _ | n4 <;>
      rcases hf : m.spaceF with nf | _ | _ | _ <;>
      simp +decide [MT.mtMotionStep, clr32_mtcmd, h, hf, MT.SpaceRes.len, MT.mtNoop]

/-- C10 (amended): every motion/control command (rewind,
rewind-unload, erase-gap, write-tape-mark, forward/backward space
record/file) dispatched to an idle, non-busy unit is accepted with
channel-end alone (the command is installed and a service event
scheduled), and -- on an attached unit -- every terminal completion of
such a command is delivered through the decoupled set_devattn
attention path with device-end (plus unit-check or unit-exception when
applicable); no motion service step on an attached unit ever posts
through chan_end.  For an unattached unit the terminal completion goes
through chan_end instead (see the counterexample). -/
theorem C10_motion_channel_end_then_attention
    (m : MT.MtMedia) (u : MT.MtUnit) (cmdw : Nat)
    (wlk bot ntrk fb : Bool) (u3 u4 u5 u6 hw : Nat)
    (ch : Chan) (buf : List Nat) (bz : Bool)
    (hidle : u.u3 &&& MT.MT_CMDMSK = 0)
    (hmot : cmdw = MT.MT_REW ∨ cmdw = MT.MT_RUN ∨ cmdw = MT.MT_ERG ∨
            cmdw = MT.MT_WTM ∨ cmdw = MT.MT_BSR ∨ cmdw = MT.MT_BSF ∨
            cmdw = MT.MT_FSR ∨ cmdw = MT.MT_FSF)
    (hcmd : u3 &&& MT.MT_CMDMSK = MT.MT_REW ∨ u3 &&& MT.MT_CMDMSK = MT.MT_RUN ∨
            u3 &&& MT.MT_CMDMSK = MT.MT_ERG ∨ u3 &&& MT.MT_CMDMSK = MT.MT_WTM ∨
            u3 &&& MT.MT_CMDMSK = MT.MT_BSR ∨ u3 &&& MT.MT_CMDMSK = MT.MT_BSF ∨
            u3 &&& MT.MT_CMDMSK = MT.MT_FSR ∨ u3 &&& MT.MT_CMDMSK = MT.MT_FSF) :
    ((MT.mt_startcmd false u cmdw).status = SNS_CHNEND ∧
     (MT.mt_startcmd false u cmdw).unit.u3 &&& MT.MT_CMDMSK = cmdw ∧
     (MT.mt_startcmd false u cmdw).delay = some 1000) ∧
    (let s : MT.MtState := ⟨⟨true, wlk, bot, ntrk, fb, u3, u4, u5, u6, hw⟩, ch, buf, bz⟩
     (MT.mt_srv m s).chanEnd = none ∧
     ((MT.mt_srv m s).st.unit.u3 &&& MT.MT_CMDMSK = 0 →
       ∃ f, (MT.mt_srv m s).devAttn = some f ∧ f &&& SNS_DEVEND ≠ 0)) := by
  constructor
  · have hk : cmdw &&& 0xF = 0x7 ∨ cmdw &&& 0xF = 0xf ∨ cmdw &&& 0xF = 0x1 ∨
        cmdw &&& 0xF = 0x2 ∨ cmdw &&& 0xF = 0xc := by
      rcases hmot with h | h | h | h | h | h | h | h <;> subst h <;> decide
    obtain ⟨h1, h2, h3⟩ := mt_startcmd_install u cmdw hidle hk
    refine ⟨?_, ?_, h2⟩
    · rw [h3]
      rcases hmot with h | h | h | h | h | h | h | h <;> subst h <;> decide
    · rw [h1]
      simp only [clr32]
      rw [clrOrMask _ _ (by decide)]
      rcases hmot with h | h | h | h | h | h | h | h <;> subst h <;> decide
  · intro s
    have hstep : MT.mt_srv m s = MT.mtMotionStep m s := by
      rcases hcmd with h | h | h | h | h | h | h | h <;> simp +decide [MT.mt_srv, h]
    rw [hstep]
    exact mtMotionStep_attention m s (by simpa using hcmd)

/-- Witness for C10: a rewind issued to an idle attached unit gets
channel-end alone with the command installed and a 1000-tick event,
and a rewind service step in phase 1 posts no chan_end and signals
device-end through the attention path. -/
theorem C10_motion_channel_end_then_attention_witness :
    ((MT.mt_startcmd false ⟨true, false, false, true, false, 0, 0, 0, 0, 0⟩
        MT.MT_REW).status = SNS_CHNEND ∧
     (MT.mt_startcmd false ⟨true, false, false, true, false, 0, 0, 0, 0, 0⟩
        MT.MT_REW).unit.u3 &&& MT.MT_CMDMSK = MT.MT_REW ∧
     (MT.mt_startcmd false ⟨true, false, false, true, false, 0, 0, 0, 0, 0⟩
        MT.MT_REW).delay = some 1000) ∧
    (let s : MT.MtState :=
       ⟨⟨true, false, false, true, false, MT.MT_REW, 1, 0, 0, 0⟩, ⟨[], 0, []⟩, [], false⟩
     (MT.mt_srv mtMediaNil s).chanEnd = none ∧
     ((MT.mt_srv mtMediaNil s).st.unit.u3 &&& MT.MT_CMDMSK = 0 →
       ∃ f, (MT.mt_srv mtMediaNil s).devAttn = some f ∧ f &&& SNS_DEVEND ≠ 0)) :=
  C10_motion_channel_end_then_attention mtMediaNil
    ⟨true, false, false, true, false, 0, 0, 0, 0, 0⟩ MT.MT_REW
    false false true false MT.MT_REW 1 0 0 0 ⟨[], 0, []⟩ [] false
    (by decide) (Or.inl rfl) (Or.inl (by decide))
